import Mathlib

/-!
Verification development for the tariff-calculation engine of the
`2810ICT_Home_Tariff_Scheme_Comparisons` repository (`tariff.py`).

The engine is a set of pure functions over validated usage records.  We embed
it shallowly:

* Python floats are modelled as exact rationals (`ℚ`); Python's `round(x, 2)`
  (banker's rounding at two decimals) is modelled by `round2`, which uses
  round-half-to-even on rationals.
* A record's timestamp string `"YYYY-MM-DD HH:MM:SS"` is modelled by its
  time-of-day in seconds (`secondsOfDay`).  The time-of-use loop in the
  source builds all comparison instants by combining the record's *own* date
  with the configured `"HH:MM:SS"` times, so every `datetime` comparison in
  the loop body is between instants of the record's day: midnight of the
  record's day corresponds to `0`, midnight of the next day to `86400`, and
  the configured window bounds to their second-of-day values.
* Raised exceptions (`AttributeError` / `ValueError` in `calculateTariff`)
  are modelled with `Except`.
-/

namespace Tariff

/-- Round-half-to-even of a rational to the nearest integer, the tie rule of
Python's builtin `round`. -/
def roundHalfEven (q : ℚ) : ℤ :=
  if q - ⌊q⌋ < 1/2 then ⌊q⌋
  else if 1/2 < q - ⌊q⌋ then ⌊q⌋ + 1
  else if ⌊q⌋ % 2 = 0 then ⌊q⌋ else ⌊q⌋ + 1

/-- Python's `round(x, 2)`, modelled exactly on rationals. -/
def round2 (q : ℚ) : ℚ := (roundHalfEven (q * 100) : ℚ) / 100

/-- `const.MONTHLY_FEE`. -/
def MONTHLY_FEE : ℚ := 10

/-- `const.MAX_KWH`. -/
def MAX_KWH : ℚ := 10000

/-- Number of seconds in a day; `record_dt_next_date_midnight` of the source
is this offset from the record's own midnight. -/
def secondsPerDay : ℕ := 86400

/-- `class TariffModel(Enum)`. -/
inductive TariffModel
  | FLAT_RATE
  | TIME_OF_USE
  | TIERED
deriving DecidableEq

/-- The runtime value passed as the `tariff_model` argument of
`calculateTariff`: Python does not enforce the annotation, so besides the
three enum members any other value can arrive, and such a value falls into
the `case _` arm of the `match`. -/
inductive TariffModelValue
  | member : TariffModel → TariffModelValue
  | nonMember : TariffModelValue
deriving DecidableEq

/-- `class TimeOfUseModel(Enum)`. -/
inductive TimeOfUseModel
  | PEAK
  | SHOULDER
  | OFF_PEAK
deriving DecidableEq

/-- `@dataclass FlatRateTariff`. -/
structure FlatRateTariff where
  rate : ℚ
deriving DecidableEq

/-- `@dataclass FlatRateTariffResult`. -/
structure FlatRateTariffResult where
  total_cost : ℚ
  total_consumption : ℚ
deriving DecidableEq

/-- `@dataclass TierThreshold`. -/
structure TierThreshold where
  threshold_level : ℤ
  low_kwh : ℚ
  high_kwh : ℚ
  tariff_rate : ℚ
deriving DecidableEq

/-- `@dataclass TierTariffThresholds`. -/
structure TierTariffThresholds where
  tier1 : TierThreshold
  tier2 : TierThreshold
  tier3 : TierThreshold
deriving DecidableEq

/-- `@dataclass TierResult`. -/
structure TierResult where
  tier_cost : ℚ
  tier_consumption : ℚ
deriving DecidableEq

/-- `@dataclass TieredTariffResult`. -/
structure TieredTariffResult where
  total_cost : ℚ
  total_consumption : ℚ
  tier1 : TierResult
  tier2 : TierResult
  tier3 : TierResult
deriving DecidableEq

/-- `@dataclass TimeOfUseCategory`; `period_start` and `period_end` hold the
parse of the `"HH:MM:SS"` strings (`_get_time_from_str`) as seconds of day. -/
structure TimeOfUseCategory where
  category : TimeOfUseModel
  period_start : ℕ
  period_end : ℕ
  tariff_rate : ℚ
deriving DecidableEq

/-- `@dataclass TimeOfUseTariffCategories`. -/
structure TimeOfUseTariffCategories where
  peak : TimeOfUseCategory
  off_peak : TimeOfUseCategory
  shoulder : TimeOfUseCategory
deriving DecidableEq

/-- `@dataclass TimeOfUseResult`. -/
structure TimeOfUseResult where
  tou_cost : ℚ
  tou_consumption : ℚ
deriving DecidableEq

/-- `@dataclass TimeOfUseTariffResult`. -/
structure TimeOfUseTariffResult where
  total_cost : ℚ
  total_consumption : ℚ
  peak : TimeOfUseResult
  off_peak : TimeOfUseResult
  shoulder : TimeOfUseResult
deriving DecidableEq

/-- `class ElectricalUsageRecord`, its timestamp reduced to the record's
time-of-day in seconds (the calculators never use the date part: the
time-of-use loop re-anchors every comparison to the record's own day). -/
structure ElectricalUsageRecord where
  secondsOfDay : ℕ
  kwh : ℚ
deriving DecidableEq

/-- `_total_consumption`: sum of `record.kwh` over the list. -/
def _total_consumption (tariff_data : List ElectricalUsageRecord) : ℚ :=
  (tariff_data.map (·.kwh)).sum

/-- `_flatRateTariff`. -/
def _flatRateTariff (tariff_data : List ElectricalUsageRecord)
    (tariff_rate : FlatRateTariff) (monthly_fee : ℚ) : FlatRateTariffResult :=
  let total_consumption := _total_consumption tariff_data
  let usage_cost := round2 (total_consumption * tariff_rate.rate)
  { total_cost := usage_cost + monthly_fee
    total_consumption := total_consumption }

/-- The `if/elif/else` classification in the loop body of `_timeOfUseTariff`,
with all same-day `datetime` comparisons expressed in seconds of the record's
day: `record_dt_midnight` is `0`, `record_dt_next_date_midnight` is
`secondsPerDay`, and `t` is the record's time of day.  The two bounds
`t ≤ secondsPerDay` and `0 ≤ t` transcribe the comparisons against the two
midnights that appear literally in the source. -/
def classifyRecord (tariff_categories : TimeOfUseTariffCategories) (t : ℕ) :
    TimeOfUseModel :=
  if tariff_categories.peak.period_start ≤ t ∧ t ≤ tariff_categories.peak.period_end then
    .PEAK
  else if (tariff_categories.off_peak.period_start ≤ t ∧ t ≤ secondsPerDay) ∨
      (0 ≤ t ∧ t ≤ tariff_categories.off_peak.period_end) then
    .OFF_PEAK
  else
    .SHOULDER

/-- Consumption accumulated into one bucket by the loop of `_timeOfUseTariff`:
the sum of `kwh` over the records the classification sends to that bucket. -/
def bucketConsumption (tariff_categories : TimeOfUseTariffCategories)
    (bucket : TimeOfUseModel) (tariff_data : List ElectricalUsageRecord) : ℚ :=
  ((tariff_data.filter fun r =>
      classifyRecord tariff_categories r.secondsOfDay = bucket).map (·.kwh)).sum

/-- `_timeOfUseTariff`. -/
def _timeOfUseTariff (tariff_data : List ElectricalUsageRecord)
    (tariff_categories : TimeOfUseTariffCategories) (monthly_fee : ℚ) :
    TimeOfUseTariffResult :=
  let total_consumption := _total_consumption tariff_data
  let peak_consumption := bucketConsumption tariff_categories .PEAK tariff_data
  let off_peak_consumption := bucketConsumption tariff_categories .OFF_PEAK tariff_data
  let shoulder_consumption := bucketConsumption tariff_categories .SHOULDER tariff_data
  let peak_result : TimeOfUseResult :=
    { tou_consumption := peak_consumption
      tou_cost := round2 (peak_consumption * tariff_categories.peak.tariff_rate) }
  let off_peak_result : TimeOfUseResult :=
    { tou_consumption := off_peak_consumption
      tou_cost := round2 (off_peak_consumption * tariff_categories.off_peak.tariff_rate) }
  let shoulder_result : TimeOfUseResult :=
    { tou_consumption := shoulder_consumption
      tou_cost := round2 (shoulder_consumption * tariff_categories.shoulder.tariff_rate) }
  { total_cost := peak_result.tou_cost + off_peak_result.tou_cost +
      shoulder_result.tou_cost + monthly_fee
    total_consumption := total_consumption
    peak := peak_result
    off_peak := off_peak_result
    shoulder := shoulder_result }

/-- `_tieredTariff`. -/
def _tieredTariff (tariff_data : List ElectricalUsageRecord)
    (tariff_tiers : TierTariffThresholds) (monthly_fee : ℚ) : TieredTariffResult :=
  let total_consumption := _total_consumption tariff_data
  let tier1_consumption := min total_consumption tariff_tiers.tier1.high_kwh
  let tier2_consumption :=
    min (max 0 (total_consumption - tariff_tiers.tier1.high_kwh))
      (tariff_tiers.tier2.high_kwh - tariff_tiers.tier1.high_kwh)
  let tier3_consumption := max 0 (total_consumption - tariff_tiers.tier2.high_kwh)
  let tier1_cost := tier1_consumption * tariff_tiers.tier1.tariff_rate
  let tier2_cost := tier2_consumption * tariff_tiers.tier2.tariff_rate
  let tier3_cost := tier3_consumption * tariff_tiers.tier3.tariff_rate
  let total_cost := tier1_cost + tier2_cost + tier3_cost + monthly_fee
  { total_cost := round2 total_cost
    total_consumption := total_consumption
    tier1 := { tier_cost := round2 tier1_cost, tier_consumption := tier1_consumption }
    tier2 := { tier_cost := round2 tier2_cost, tier_consumption := tier2_consumption }
    tier3 := { tier_cost := round2 tier3_cost, tier_consumption := tier3_consumption } }

/-- The error taxonomy of `calculateTariff`: `MissingConfiguration` models the
`AttributeError` raised when the selected model's configuration is `None`,
`UnknownModel` the `ValueError` of the `case _` arm. -/
inductive TariffError
  | MissingConfiguration
  | UnknownModel
deriving DecidableEq

/-- The union result type `FlatRateTariffResult | TieredTariffResult |
TimeOfUseTariffResult` of `calculateTariff`. -/
inductive TariffResult
  | flat : FlatRateTariffResult → TariffResult
  | timeOfUse : TimeOfUseTariffResult → TariffResult
  | tiered : TieredTariffResult → TariffResult
deriving DecidableEq

/-- `calculateTariff`: dispatch on the tariff-model selector, checking that
the matching configuration argument is not `None`. -/
def calculateTariff (tariff_data : List ElectricalUsageRecord)
    (tariff_model : TariffModelValue)
    (flat_rate_tariff : Option FlatRateTariff)
    (time_of_use_tariffs : Option TimeOfUseTariffCategories)
    (tiered_tariffs : Option TierTariffThresholds)
    (monthly_fee : ℚ) : Except TariffError TariffResult :=
  match tariff_model with
  | .member .FLAT_RATE =>
    match flat_rate_tariff with
    | none => .error .MissingConfiguration
    | some cfg => .ok (.flat (_flatRateTariff tariff_data cfg monthly_fee))
  | .member .TIME_OF_USE =>
    match time_of_use_tariffs with
    | none => .error .MissingConfiguration
    | some cfg => .ok (.timeOfUse (_timeOfUseTariff tariff_data cfg monthly_fee))
  | .member .TIERED =>
    match tiered_tariffs with
    | none => .error .MissingConfiguration
    | some cfg => .ok (.tiered (_tieredTariff tariff_data cfg monthly_fee))
  | .nonMember => .error .UnknownModel

/-! ### Basic facts about the embedded rounding and aggregation -/

lemma round2_zero : round2 0 = 0 := by
  norm_num [round2, roundHalfEven]

lemma floor_le_roundHalfEven (q : ℚ) : ⌊q⌋ ≤ roundHalfEven q := by
  unfold roundHalfEven
  split_ifs <;> omega

lemma roundHalfEven_le_floor_add_one (q : ℚ) : roundHalfEven q ≤ ⌊q⌋ + 1 := by
  unfold roundHalfEven
  split_ifs <;> omega

lemma roundHalfEven_mono {q r : ℚ} (h : q ≤ r) :
    roundHalfEven q ≤ roundHalfEven r := by
  rcases lt_or_le ⌊q⌋ ⌊r⌋ with hf | hf
  · calc roundHalfEven q ≤ ⌊q⌋ + 1 := roundHalfEven_le_floor_add_one q
      _ ≤ ⌊r⌋ := by omega
      _ ≤ roundHalfEven r := floor_le_roundHalfEven r
  · have heq : ⌊q⌋ = ⌊r⌋ := le_antisymm (Int.floor_le_floor h) hf
    unfold roundHalfEven
    rw [heq]
    split_ifs <;> first | omega | linarith

lemma round2_mono {q r : ℚ} (h : q ≤ r) : round2 q ≤ round2 r := by
  unfold round2
  have h2 : ((roundHalfEven (q * 100) : ℚ)) ≤ (roundHalfEven (r * 100) : ℚ) :=
    Int.cast_le.mpr (roundHalfEven_mono (by linarith))
  linarith

lemma round2_eq_self {q : ℚ} (h : (q * 100).den = 1) : round2 q = q := by
  have h1 : ((q * 100).num : ℚ) = q * 100 := (Rat.den_eq_one_iff _).mp h
  have h2 : (⌊q * 100⌋ : ℚ) = q * 100 := by
    rw [show ⌊q * 100⌋ = (q * 100).num from by
      rw [← h1, Int.floor_intCast, Rat.num_intCast], h1]
  unfold round2 roundHalfEven
  rw [if_pos (show q * 100 - (⌊q * 100⌋ : ℚ) < 1/2 from by rw [h2]; norm_num)]
  rw [h2]
  ring

lemma _total_consumption_nil : _total_consumption [] = 0 := rfl

lemma _total_consumption_cons (r : ElectricalUsageRecord)
    (l : List ElectricalUsageRecord) :
    _total_consumption (r :: l) = r.kwh + _total_consumption l := by
  simp [_total_consumption]

lemma bucketConsumption_nil (cats : TimeOfUseTariffCategories)
    (b : TimeOfUseModel) : bucketConsumption cats b [] = 0 := rfl

lemma bucketConsumption_cons (cats : TimeOfUseTariffCategories)
    (b : TimeOfUseModel) (r : ElectricalUsageRecord)
    (l : List ElectricalUsageRecord) :
    bucketConsumption cats b (r :: l) =
      (if classifyRecord cats r.secondsOfDay = b then r.kwh else 0) +
        bucketConsumption cats b l := by
  by_cases h : classifyRecord cats r.secondsOfDay = b <;>
    simp [bucketConsumption, List.filter_cons, h]

/-- Every record is accumulated into exactly one bucket, so the three bucket
sums add up to the total consumption. -/
lemma bucketConsumption_partition (cats : TimeOfUseTariffCategories)
    (l : List ElectricalUsageRecord) :
    bucketConsumption cats .PEAK l + bucketConsumption cats .OFF_PEAK l +
      bucketConsumption cats .SHOULDER l = _total_consumption l := by
  induction l with
  | nil => simp [bucketConsumption_nil, _total_consumption_nil]
  | cons r t ih =>
    rw [bucketConsumption_cons, bucketConsumption_cons, bucketConsumption_cons,
      _total_consumption_cons]
    cases hc : classifyRecord cats r.secondsOfDay <;> simp [hc] <;> linarith

/-! ### Claim theorems: flat rate, dispatcher, tiered calculator -/

/-- Claim C8 (confirmed): the flat-rate calculator returns the sum of the
records' kwh as `total_consumption`, and `total_cost` is the usage cost
`round2(total * rate)` — rounded before the fee is added — plus the fee, so
the fee itself is never rounded. -/
theorem flatRateTariff_spec (tariff_data : List ElectricalUsageRecord)
    (cfg : FlatRateTariff) (monthly_fee : ℚ) :
    (_flatRateTariff tariff_data cfg monthly_fee).total_consumption =
      (tariff_data.map (·.kwh)).sum ∧
    (_flatRateTariff tariff_data cfg monthly_fee).total_cost =
      round2 ((tariff_data.map (·.kwh)).sum * cfg.rate) + monthly_fee :=
  ⟨rfl, rfl⟩

/-- Claim C4 (confirmed): `calculateTariff` fails with `MissingConfiguration`
exactly when the configuration matching the selected model is absent
(regardless of the other configuration arguments), fails with `UnknownModel`
exactly when the selector is not a member of the `TariffModel` enum, and
otherwise returns the single matching calculator's result; the `Except`
result shows no partial result is produced on failure. -/
theorem calculateTariff_spec (tariff_data : List ElectricalUsageRecord)
    (f : Option FlatRateTariff) (t : Option TimeOfUseTariffCategories)
    (tr : Option TierTariffThresholds) (monthly_fee : ℚ) :
    (calculateTariff tariff_data (.member .FLAT_RATE) none t tr monthly_fee =
      .error .MissingConfiguration) ∧
    (∀ cfg, calculateTariff tariff_data (.member .FLAT_RATE) (some cfg) t tr monthly_fee =
      .ok (.flat (_flatRateTariff tariff_data cfg monthly_fee))) ∧
    (calculateTariff tariff_data (.member .TIME_OF_USE) f none tr monthly_fee =
      .error .MissingConfiguration) ∧
    (∀ cfg, calculateTariff tariff_data (.member .TIME_OF_USE) f (some cfg) tr monthly_fee =
      .ok (.timeOfUse (_timeOfUseTariff tariff_data cfg monthly_fee))) ∧
    (calculateTariff tariff_data (.member .TIERED) f t none monthly_fee =
      .error .MissingConfiguration) ∧
    (∀ cfg, calculateTariff tariff_data (.member .TIERED) f t (some cfg) monthly_fee =
      .ok (.tiered (_tieredTariff tariff_data cfg monthly_fee))) ∧
    (calculateTariff tariff_data .nonMember f t tr monthly_fee =
      .error .UnknownModel) :=
  ⟨rfl, fun _ => rfl, rfl, fun _ => rfl, rfl, fun _ => rfl, rfl⟩

/-- Claim C6 (confirmed): in the time-of-use result the peak, off-peak and
shoulder consumptions add up to the reported total consumption — every
record lands in exactly one bucket. -/
theorem timeOfUseTariff_partition (tariff_data : List ElectricalUsageRecord)
    (cats : TimeOfUseTariffCategories) (monthly_fee : ℚ) :
    (_timeOfUseTariff tariff_data cats monthly_fee).peak.tou_consumption +
      (_timeOfUseTariff tariff_data cats monthly_fee).off_peak.tou_consumption +
      (_timeOfUseTariff tariff_data cats monthly_fee).shoulder.tou_consumption =
      (_timeOfUseTariff tariff_data cats monthly_fee).total_consumption :=
  bucketConsumption_partition cats tariff_data

/-- Claim C1, counterexample: with one 1 kWh record, tier-1 rate 0.004,
tier-2 and tier-3 rates 0 and monthly fee 0.004, the code's `total_cost`
(`round2` of the *unrounded* tier costs plus the fee, giving 0.01) differs
from the claimed `round2(sum of the three rounded tier costs) + fee`
(which gives 0.004). -/
theorem tieredTariff_rounding_counterexample :
    (_tieredTariff [⟨43200, 1⟩]
        ⟨⟨1, 0, 100, 1/250⟩, ⟨2, 101, 300, 0⟩, ⟨3, 301, 10000, 0⟩⟩ (1/250)).total_cost ≠
      round2 ((_tieredTariff [⟨43200, 1⟩]
          ⟨⟨1, 0, 100, 1/250⟩, ⟨2, 101, 300, 0⟩, ⟨3, 301, 10000, 0⟩⟩ (1/250)).tier1.tier_cost +
        (_tieredTariff [⟨43200, 1⟩]
          ⟨⟨1, 0, 100, 1/250⟩, ⟨2, 101, 300, 0⟩, ⟨3, 301, 10000, 0⟩⟩ (1/250)).tier2.tier_cost +
        (_tieredTariff [⟨43200, 1⟩]
          ⟨⟨1, 0, 100, 1/250⟩, ⟨2, 101, 300, 0⟩, ⟨3, 301, 10000, 0⟩⟩ (1/250)).tier3.tier_cost) +
      1/250 := by
  norm_num [_tieredTariff, _total_consumption, min_def, max_def, round2, roundHalfEven]

/-- Claim C1 as amended: each tier's *reported* cost is
`round2(tier_consumption * rate)`, but the reported `total_cost` is the
single rounding `round2(c1*r1 + c2*r2 + c3*r3 + monthlyFee)` of the
*unrounded* tier costs with the monthly fee included inside the rounding
(the fee is added before rounding, not after). -/
theorem tieredTariff_rounding_spec (tariff_data : List ElectricalUsageRecord)
    (tiers : TierTariffThresholds) (monthly_fee : ℚ) :
    (_tieredTariff tariff_data tiers monthly_fee).tier1.tier_cost =
      round2 (min (_total_consumption tariff_data) tiers.tier1.high_kwh *
        tiers.tier1.tariff_rate) ∧
    (_tieredTariff tariff_data tiers monthly_fee).tier2.tier_cost =
      round2 (min (max 0 (_total_consumption tariff_data - tiers.tier1.high_kwh))
        (tiers.tier2.high_kwh - tiers.tier1.high_kwh) * tiers.tier2.tariff_rate) ∧
    (_tieredTariff tariff_data tiers monthly_fee).tier3.tier_cost =
      round2 (max 0 (_total_consumption tariff_data - tiers.tier2.high_kwh) *
        tiers.tier3.tariff_rate) ∧
    (_tieredTariff tariff_data tiers monthly_fee).total_cost =
      round2 (min (_total_consumption tariff_data) tiers.tier1.high_kwh *
          tiers.tier1.tariff_rate +
        min (max 0 (_total_consumption tariff_data - tiers.tier1.high_kwh))
          (tiers.tier2.high_kwh - tiers.tier1.high_kwh) * tiers.tier2.tariff_rate +
        max 0 (_total_consumption tariff_data - tiers.tier2.high_kwh) *
          tiers.tier3.tariff_rate +
        monthly_fee) :=
  ⟨rfl, rfl, rfl, rfl⟩

/-- Splitting a total over the tier boundaries: at a boundary the whole total
belongs to the lower tiers. -/
lemma tierSplit_boundary {T h1 h2 : ℚ} (h12 : h1 ≤ h2) :
    (T = h1 → min T h1 = T ∧ min (max 0 (T - h1)) (h2 - h1) = 0 ∧
      max 0 (T - h2) = 0) ∧
    (T = h2 → max 0 (T - h2) = 0) := by
  constructor
  · rintro rfl
    refine ⟨min_self _, ?_, ?_⟩
    · rw [sub_self, max_self, min_eq_left (by linarith)]
    · rw [max_eq_left (by linarith)]
  · rintro rfl
    rw [sub_self, max_self]

/-- Claim C3 (confirmed): the tiered calculator attributes
`min(T, tier1.high)` to tier 1, `clamp(T - tier1.high, 0, tier2.high -
tier1.high)` to tier 2 and `max(0, T - tier2.high)` to tier 3, reports
`total_consumption = T`, and a total exactly at a tier's `high_kwh` boundary
is attributed entirely to the lower tiers (nothing above it). -/
theorem tieredTariff_consumption_spec (tariff_data : List ElectricalUsageRecord)
    (tiers : TierTariffThresholds) (monthly_fee : ℚ)
    (htier : tiers.tier1.high_kwh ≤ tiers.tier2.high_kwh) :
    (_tieredTariff tariff_data tiers monthly_fee).tier1.tier_consumption =
      min (_total_consumption tariff_data) tiers.tier1.high_kwh ∧
    (_tieredTariff tariff_data tiers monthly_fee).tier2.tier_consumption =
      min (max 0 (_total_consumption tariff_data - tiers.tier1.high_kwh))
        (tiers.tier2.high_kwh - tiers.tier1.high_kwh) ∧
    (_tieredTariff tariff_data tiers monthly_fee).tier3.tier_consumption =
      max 0 (_total_consumption tariff_data - tiers.tier2.high_kwh) ∧
    (_tieredTariff tariff_data tiers monthly_fee).total_consumption =
      _total_consumption tariff_data ∧
    (_total_consumption tariff_data = tiers.tier1.high_kwh →
      (_tieredTariff tariff_data tiers monthly_fee).tier1.tier_consumption =
        _total_consumption tariff_data ∧
      (_tieredTariff tariff_data tiers monthly_fee).tier2.tier_consumption = 0 ∧
      (_tieredTariff tariff_data tiers monthly_fee).tier3.tier_consumption = 0) ∧
    (_total_consumption tariff_data = tiers.tier2.high_kwh →
      (_tieredTariff tariff_data tiers monthly_fee).tier3.tier_consumption = 0) :=
  ⟨rfl, rfl, rfl, rfl, (tierSplit_boundary htier).1, (tierSplit_boundary htier).2⟩

/-- Witness for `tieredTariff_consumption_spec`: the 100/300 threshold scheme
with a single 100 kWh record — exactly the tier-1 boundary. -/
theorem tieredTariff_consumption_spec_witness :
    ((100:ℚ) ≤ 300) ∧
    (_tieredTariff [⟨43200, 100⟩]
        ⟨⟨1, 0, 100, 11/50⟩, ⟨2, 101, 300, 8/25⟩, ⟨3, 301, 10000, 21/50⟩⟩
        10).tier2.tier_consumption = 0 :=
  ⟨by norm_num,
    ((tieredTariff_consumption_spec [⟨43200, 100⟩]
        ⟨⟨1, 0, 100, 11/50⟩, ⟨2, 101, 300, 8/25⟩, ⟨3, 301, 10000, 21/50⟩⟩
        10 (by norm_num)).2.2.2.2.1
      (by norm_num [_total_consumption])).2.1⟩

/-- Claim C7 (confirmed): for a non-negative total and
`tier1.high_kwh < tier2.high_kwh`, the three reported tier consumptions sum
exactly to the reported total consumption. -/
theorem tieredTariff_partition_invariant (tariff_data : List ElectricalUsageRecord)
    (tiers : TierTariffThresholds) (monthly_fee : ℚ)
    (h0 : 0 ≤ _total_consumption tariff_data)
    (h12 : tiers.tier1.high_kwh < tiers.tier2.high_kwh) :
    (_tieredTariff tariff_data tiers monthly_fee).tier1.tier_consumption +
      (_tieredTariff tariff_data tiers monthly_fee).tier2.tier_consumption +
      (_tieredTariff tariff_data tiers monthly_fee).tier3.tier_consumption =
      (_tieredTariff tariff_data tiers monthly_fee).total_consumption := by
  show min (_total_consumption tariff_data) tiers.tier1.high_kwh +
      min (max 0 (_total_consumption tariff_data - tiers.tier1.high_kwh))
        (tiers.tier2.high_kwh - tiers.tier1.high_kwh) +
      max 0 (_total_consumption tariff_data - tiers.tier2.high_kwh) =
      _total_consumption tariff_data
  simp only [min_def, max_def]
  split_ifs <;> linarith

/-- Witness for `tieredTariff_partition_invariant`: 750 kWh against the
100/300 thresholds. -/
theorem tieredTariff_partition_invariant_witness :
    (0 ≤ _total_consumption [⟨3600, 750⟩]) ∧ ((100:ℚ) < 300) ∧
    (_tieredTariff [⟨3600, 750⟩]
        ⟨⟨1, 0, 100, 1/5⟩, ⟨2, 101, 300, 3/10⟩, ⟨3, 301, 10000, 2/5⟩⟩
        10).tier1.tier_consumption +
      (_tieredTariff [⟨3600, 750⟩]
        ⟨⟨1, 0, 100, 1/5⟩, ⟨2, 101, 300, 3/10⟩, ⟨3, 301, 10000, 2/5⟩⟩
        10).tier2.tier_consumption +
      (_tieredTariff [⟨3600, 750⟩]
        ⟨⟨1, 0, 100, 1/5⟩, ⟨2, 101, 300, 3/10⟩, ⟨3, 301, 10000, 2/5⟩⟩
        10).tier3.tier_consumption =
      (_tieredTariff [⟨3600, 750⟩]
        ⟨⟨1, 0, 100, 1/5⟩, ⟨2, 101, 300, 3/10⟩, ⟨3, 301, 10000, 2/5⟩⟩
        10).total_consumption :=
  ⟨by norm_num [_total_consumption], by norm_num,
    tieredTariff_partition_invariant _ _ _ (by norm_num [_total_consumption])
      (by norm_num)⟩

/-- Claim C5, counterexample: with no usage records and a monthly fee of
0.001, the tiered calculator reports `total_cost = round2(0.001) = 0`, not
the fee — the fee passes through the final rounding of `_tieredTariff`. -/
theorem fee_invariant_counterexample :
    (_tieredTariff []
        ⟨⟨1, 0, 100, 1/5⟩, ⟨2, 101, 300, 3/10⟩, ⟨3, 301, 10000, 2/5⟩⟩
        (1/1000)).total_cost ≠ 1/1000 := by
  norm_num [_tieredTariff, _total_consumption, min_def, max_def, round2,
    roundHalfEven]

/-- Claim C5 as amended: with an empty record list the flat-rate and
time-of-use calculators return `total_cost = monthlyFee` exactly for every
fee, but the tiered calculator returns `round2(monthlyFee)` (its final
rounding includes the fee); the three coincide exactly when the fee is a
whole number of cents.  All three report `total_consumption = 0`.  The
tiered case assumes the configuration invariant
`0 ≤ tier1.high_kwh ≤ tier2.high_kwh` (otherwise a tier would be assigned
negative consumption even with no records). -/
theorem fee_invariant_amended (flat_cfg : FlatRateTariff)
    (cats : TimeOfUseTariffCategories) (tiers : TierTariffThresholds)
    (monthly_fee : ℚ) (h1 : 0 ≤ tiers.tier1.high_kwh)
    (h12 : tiers.tier1.high_kwh ≤ tiers.tier2.high_kwh) :
    (_flatRateTariff [] flat_cfg monthly_fee).total_cost = monthly_fee ∧
    (_flatRateTariff [] flat_cfg monthly_fee).total_consumption = 0 ∧
    (_timeOfUseTariff [] cats monthly_fee).total_cost = monthly_fee ∧
    (_timeOfUseTariff [] cats monthly_fee).total_consumption = 0 ∧
    (_tieredTariff [] tiers monthly_fee).total_cost = round2 monthly_fee ∧
    (_tieredTariff [] tiers monthly_fee).total_consumption = 0 ∧
    ((monthly_fee * 100).den = 1 →
      (_tieredTariff [] tiers monthly_fee).total_cost = monthly_fee) := by
  have hflat : (_flatRateTariff [] flat_cfg monthly_fee).total_cost = monthly_fee := by
    show round2 (_total_consumption [] * flat_cfg.rate) + monthly_fee = monthly_fee
    rw [_total_consumption_nil, zero_mul, round2_zero, zero_add]
  have htou : (_timeOfUseTariff [] cats monthly_fee).total_cost = monthly_fee := by
    show round2 (bucketConsumption cats .PEAK [] * cats.peak.tariff_rate) +
        round2 (bucketConsumption cats .OFF_PEAK [] * cats.off_peak.tariff_rate) +
        round2 (bucketConsumption cats .SHOULDER [] * cats.shoulder.tariff_rate) +
        monthly_fee = monthly_fee
    simp only [bucketConsumption_nil, zero_mul, round2_zero, zero_add]
  have htiered : (_tieredTariff [] tiers monthly_fee).total_cost =
      round2 monthly_fee := by
    show round2 (min (_total_consumption []) tiers.tier1.high_kwh *
          tiers.tier1.tariff_rate +
        min (max 0 (_total_consumption [] - tiers.tier1.high_kwh))
          (tiers.tier2.high_kwh - tiers.tier1.high_kwh) * tiers.tier2.tariff_rate +
        max 0 (_total_consumption [] - tiers.tier2.high_kwh) *
          tiers.tier3.tariff_rate + monthly_fee) = round2 monthly_fee
    rw [_total_consumption_nil, min_eq_left h1, max_eq_left (by linarith),
      min_eq_left (by linarith), max_eq_left (by linarith), zero_mul, zero_mul,
      zero_mul, zero_add, zero_add, zero_add]
  exact ⟨hflat, rfl, htou, rfl, htiered, rfl,
    fun hden => htiered.trans (round2_eq_self hden)⟩

/-- Witness for `fee_invariant_amended`: concrete configurations and the
whole-cent fee 10.0, for which all three models return exactly the fee. -/
theorem fee_invariant_amended_witness :
    ((0:ℚ) ≤ 100) ∧ ((100:ℚ) ≤ 300) ∧
    (_flatRateTariff [] ⟨1/4⟩ 10).total_cost = 10 ∧
    (_timeOfUseTariff []
        ⟨⟨.PEAK, 64800, 79199, 2/5⟩, ⟨.OFF_PEAK, 79200, 25199, 3/25⟩,
          ⟨.SHOULDER, 25200, 64799, 3/10⟩⟩ 10).total_cost = 10 ∧
    (_tieredTariff []
        ⟨⟨1, 0, 100, 1/5⟩, ⟨2, 101, 300, 3/10⟩, ⟨3, 301, 10000, 2/5⟩⟩
        10).total_cost = 10 := by
  refine ⟨by norm_num, by norm_num, ?_, ?_, ?_⟩
  · exact (fee_invariant_amended ⟨1/4⟩
      ⟨⟨.PEAK, 64800, 79199, 2/5⟩, ⟨.OFF_PEAK, 79200, 25199, 3/25⟩,
        ⟨.SHOULDER, 25200, 64799, 3/10⟩⟩
      ⟨⟨1, 0, 100, 1/5⟩, ⟨2, 101, 300, 3/10⟩, ⟨3, 301, 10000, 2/5⟩⟩
      10 (by norm_num) (by norm_num)).1
  · exact (fee_invariant_amended ⟨1/4⟩
      ⟨⟨.PEAK, 64800, 79199, 2/5⟩, ⟨.OFF_PEAK, 79200, 25199, 3/25⟩,
        ⟨.SHOULDER, 25200, 64799, 3/10⟩⟩
      ⟨⟨1, 0, 100, 1/5⟩, ⟨2, 101, 300, 3/10⟩, ⟨3, 301, 10000, 2/5⟩⟩
      10 (by norm_num) (by norm_num)).2.2.1
  · exact (fee_invariant_amended ⟨1/4⟩
      ⟨⟨.PEAK, 64800, 79199, 2/5⟩, ⟨.OFF_PEAK, 79200, 25199, 3/25⟩,
        ⟨.SHOULDER, 25200, 64799, 3/10⟩⟩
      ⟨⟨1, 0, 100, 1/5⟩, ⟨2, 101, 300, 3/10⟩, ⟨3, 301, 10000, 2/5⟩⟩
      10 (by norm_num) (by norm_num)).2.2.2.2.2.2
      (by norm_num [Rat.den_ofNat])

/-! ### Claim theorems: time-of-use classification -/

/-- Claim C2, counterexample: with a *same-day* off-peak window 22:00–23:00
(`period_start ≤ period_end`, so the window does not span midnight) and peak
10:00–12:00, a 15:00 record is not in peak and — contrary to the claim,
which would classify it shoulder because the midnight-spanning condition
fails — the code classifies it off-peak: the two half-interval tests are
applied without any check that the window spans midnight, and the second
test `record_dt_midnight ≤ record_dt ≤ off_peak_end_dt` accepts 15:00 ≤
22:00.  The whole 1 kWh lands in the off-peak bucket and none in shoulder. -/
theorem tou_offpeak_spansMidnight_counterexample :
    (⟨⟨.PEAK, 36000, 43200, 1/2⟩, ⟨.OFF_PEAK, 79200, 82800, 1/10⟩,
        ⟨.SHOULDER, 43201, 79199, 3/10⟩⟩ :
      TimeOfUseTariffCategories).off_peak.period_start ≤
      (⟨⟨.PEAK, 36000, 43200, 1/2⟩, ⟨.OFF_PEAK, 79200, 82800, 1/10⟩,
          ⟨.SHOULDER, 43201, 79199, 3/10⟩⟩ :
        TimeOfUseTariffCategories).off_peak.period_end ∧
    ¬(36000 ≤ 54000 ∧ 54000 ≤ 43200) ∧
    classifyRecord
      ⟨⟨.PEAK, 36000, 43200, 1/2⟩, ⟨.OFF_PEAK, 79200, 82800, 1/10⟩,
        ⟨.SHOULDER, 43201, 79199, 3/10⟩⟩ 54000 = .OFF_PEAK ∧
    (_timeOfUseTariff [⟨54000, 1⟩]
        ⟨⟨.PEAK, 36000, 43200, 1/2⟩, ⟨.OFF_PEAK, 79200, 82800, 1/10⟩,
          ⟨.SHOULDER, 43201, 79199, 3/10⟩⟩ 0).shoulder.tou_consumption = 0 ∧
    (_timeOfUseTariff [⟨54000, 1⟩]
        ⟨⟨.PEAK, 36000, 43200, 1/2⟩, ⟨.OFF_PEAK, 79200, 82800, 1/10⟩,
          ⟨.SHOULDER, 43201, 79199, 3/10⟩⟩ 0).off_peak.tou_consumption = 1 := by
  refine ⟨by decide, by decide, by decide, ?_, ?_⟩
  · show bucketConsumption
      ⟨⟨.PEAK, 36000, 43200, 1/2⟩, ⟨.OFF_PEAK, 79200, 82800, 1/10⟩,
        ⟨.SHOULDER, 43201, 79199, 3/10⟩⟩ .SHOULDER [⟨54000, 1⟩] = 0
    rw [bucketConsumption_cons, if_neg (by decide), bucketConsumption_nil]
    norm_num
  · show bucketConsumption
      ⟨⟨.PEAK, 36000, 43200, 1/2⟩, ⟨.OFF_PEAK, 79200, 82800, 1/10⟩,
        ⟨.SHOULDER, 43201, 79199, 3/10⟩⟩ .OFF_PEAK [⟨54000, 1⟩] = 1
    rw [bucketConsumption_cons, if_pos (by decide), bucketConsumption_nil]
    norm_num

/-- Claim C2 as amended: a record not classified peak is classified off-peak
if and only if its time satisfies one of the two half-interval tests
`off_peak.start ≤ t ≤ next-midnight` or `current-midnight ≤ t ≤
off_peak.end` — the tests are applied unconditionally, with no check that
the off-peak window spans midnight — and shoulder otherwise. -/
theorem classifyRecord_offpeak_spec (cats : TimeOfUseTariffCategories) (t : ℕ)
    (hpeak : ¬(cats.peak.period_start ≤ t ∧ t ≤ cats.peak.period_end)) :
    (classifyRecord cats t = .OFF_PEAK ↔
      ((cats.off_peak.period_start ≤ t ∧ t ≤ secondsPerDay) ∨
        (0 ≤ t ∧ t ≤ cats.off_peak.period_end))) ∧
    (classifyRecord cats t = .SHOULDER ↔
      ¬((cats.off_peak.period_start ≤ t ∧ t ≤ secondsPerDay) ∨
        (0 ≤ t ∧ t ≤ cats.off_peak.period_end))) := by
  unfold classifyRecord
  rw [if_neg hpeak]
  by_cases hoff : (cats.off_peak.period_start ≤ t ∧ t ≤ secondsPerDay) ∨
      (0 ≤ t ∧ t ≤ cats.off_peak.period_end)
  · rw [if_pos hoff]
    exact ⟨iff_of_true rfl hoff, iff_of_false (by decide) (not_not_intro hoff)⟩
  · rw [if_neg hoff]
    exact ⟨iff_of_false (by decide) hoff, iff_of_true rfl hoff⟩

/-- Witness for `classifyRecord_offpeak_spec` at a non-peak time. -/
theorem classifyRecord_offpeak_spec_witness :
    ¬((36000:ℕ) ≤ 54000 ∧ (54000:ℕ) ≤ 43200) ∧
    classifyRecord
      ⟨⟨.PEAK, 36000, 43200, 1/2⟩, ⟨.OFF_PEAK, 79200, 82800, 1/10⟩,
        ⟨.SHOULDER, 43201, 79199, 3/10⟩⟩ 54000 = .OFF_PEAK :=
  ⟨by decide,
    (classifyRecord_offpeak_spec
        ⟨⟨.PEAK, 36000, 43200, 1/2⟩, ⟨.OFF_PEAK, 79200, 82800, 1/10⟩,
          ⟨.SHOULDER, 43201, 79199, 3/10⟩⟩ 54000 (by decide)).1.mpr
      (by decide)⟩

/-- With a same-day off-peak window, a record time inside the day never
reaches the shoulder branch: one of the two off-peak half-interval tests
always accepts it. -/
lemma classifyRecord_ne_shoulder (cats : TimeOfUseTariffCategories) (t : ℕ)
    (hwin : cats.off_peak.period_start ≤ cats.off_peak.period_end)
    (ht : t < secondsPerDay) : classifyRecord cats t ≠ .SHOULDER := by
  unfold classifyRecord
  split_ifs with h1 h2
  · decide
  · decide
  · exfalso
    simp only [secondsPerDay] at h2 ht
    omega

/-- Claim C10 (confirmed): when the configured off-peak window is same-day
(`period_start ≤ period_end`), every record not classified peak passes the
off-peak test, so nothing is ever classified shoulder and the shoulder
bucket's consumption and cost are both 0. -/
theorem tou_sameday_offpeak_shoulder_zero (tariff_data : List ElectricalUsageRecord)
    (cats : TimeOfUseTariffCategories) (monthly_fee : ℚ)
    (hwin : cats.off_peak.period_start ≤ cats.off_peak.period_end)
    (hvalid : ∀ r ∈ tariff_data, r.secondsOfDay < secondsPerDay) :
    (∀ r ∈ tariff_data, classifyRecord cats r.secondsOfDay ≠ .SHOULDER) ∧
    (_timeOfUseTariff tariff_data cats monthly_fee).shoulder.tou_consumption = 0 ∧
    (_timeOfUseTariff tariff_data cats monthly_fee).shoulder.tou_cost = 0 := by
  have hcls : ∀ r ∈ tariff_data, classifyRecord cats r.secondsOfDay ≠ .SHOULDER :=
    fun r hr => classifyRecord_ne_shoulder cats r.secondsOfDay hwin (hvalid r hr)
  have hfil : tariff_data.filter
      (fun r => classifyRecord cats r.secondsOfDay = TimeOfUseModel.SHOULDER) = [] :=
    List.filter_eq_nil_iff.mpr (fun a ha => by simpa using hcls a ha)
  have hcons : bucketConsumption cats .SHOULDER tariff_data = 0 := by
    unfold bucketConsumption
    rw [hfil]
    rfl
  refine ⟨hcls, hcons, ?_⟩
  show round2 (bucketConsumption cats .SHOULDER tariff_data *
    cats.shoulder.tariff_rate) = 0
  rw [hcons, zero_mul, round2_zero]

/-- Witness for `tou_sameday_offpeak_shoulder_zero`: a same-day (whole-day)
off-peak window and a single mid-morning record. -/
theorem tou_sameday_offpeak_shoulder_zero_witness :
    ((0:ℕ) ≤ 86399) ∧
    (∀ r ∈ ([⟨30000, 2⟩] : List ElectricalUsageRecord),
      r.secondsOfDay < secondsPerDay) ∧
    (_timeOfUseTariff [⟨30000, 2⟩]
        ⟨⟨.PEAK, 61200, 75599, 19/50⟩, ⟨.OFF_PEAK, 0, 86399, 7/50⟩,
          ⟨.SHOULDER, 25200, 61199, 7/25⟩⟩ 10).shoulder.tou_consumption = 0 :=
  ⟨by decide, by decide,
    (tou_sameday_offpeak_shoulder_zero [⟨30000, 2⟩]
        ⟨⟨.PEAK, 61200, 75599, 19/50⟩, ⟨.OFF_PEAK, 0, 86399, 7/50⟩,
          ⟨.SHOULDER, 25200, 61199, 7/25⟩⟩ 10 (by decide) (by decide)).2.1⟩

/-! ### Claim theorems: monotonicity in a single record's kwh -/

/-- Pointwise domination of record lists: same length, identical record
times, and kwh no smaller on the right. -/
def RecordsLE (l l2 : List ElectricalUsageRecord) : Prop :=
  List.Forall₂ (fun a b => a.secondsOfDay = b.secondsOfDay ∧ a.kwh ≤ b.kwh) l l2

lemma recordsLE_total_le {l l2 : List ElectricalUsageRecord}
    (h : RecordsLE l l2) : _total_consumption l ≤ _total_consumption l2 := by
  induction h with
  | nil => exact le_rfl
  | cons hab htl ih =>
    rw [_total_consumption_cons, _total_consumption_cons]
    exact add_le_add hab.2 ih

lemma recordsLE_bucket_le (cats : TimeOfUseTariffCategories)
    (bkt : TimeOfUseModel) {l l2 : List ElectricalUsageRecord}
    (h : RecordsLE l l2) :
    bucketConsumption cats bkt l ≤ bucketConsumption cats bkt l2 := by
  induction h with
  | nil => exact le_rfl
  | @cons a b l₁ l₂ hab htl ih =>
    rw [bucketConsumption_cons, bucketConsumption_cons, hab.1]
    by_cases hc : classifyRecord cats b.secondsOfDay = bkt
    · rw [if_pos hc, if_pos hc]
      exact add_le_add hab.2 ih
    · rw [if_neg hc, if_neg hc]
      exact add_le_add le_rfl ih

lemma recordsLE_set : ∀ (l : List ElectricalUsageRecord) (i : ℕ)
    (r2 : ElectricalUsageRecord) (hi : i < l.length),
    r2.secondsOfDay = (l.get ⟨i, hi⟩).secondsOfDay →
    (l.get ⟨i, hi⟩).kwh ≤ r2.kwh → RecordsLE l (l.set i r2) := by
  intro l
  induction l with
  | nil =>
    intro i r2 hi
    exact absurd hi (by simp)
  | cons a t ih =>
    intro i r2 hi ht hk
    cases i with
    | zero =>
      exact List.Forall₂.cons ⟨ht.symm, hk⟩
        (List.forall₂_same.mpr fun x _ => ⟨rfl, le_rfl⟩)
    | succ j =>
      have hj : j < t.length := by simpa using hi
      exact List.Forall₂.cons ⟨rfl, le_rfl⟩ (ih j r2 hj ht hk)

lemma flatRate_total_cost_mono (cfg : FlatRateTariff) (monthly_fee : ℚ)
    {l l2 : List ElectricalUsageRecord} (hr : 0 ≤ cfg.rate)
    (h : RecordsLE l l2) :
    (_flatRateTariff l cfg monthly_fee).total_cost ≤
      (_flatRateTariff l2 cfg monthly_fee).total_cost := by
  show round2 (_total_consumption l * cfg.rate) + monthly_fee ≤
    round2 (_total_consumption l2 * cfg.rate) + monthly_fee
  have hm := round2_mono
    (mul_le_mul_of_nonneg_right (recordsLE_total_le h) hr)
  linarith

lemma timeOfUse_total_cost_mono (cats : TimeOfUseTariffCategories)
    (monthly_fee : ℚ) {l l2 : List ElectricalUsageRecord}
    (hp : 0 ≤ cats.peak.tariff_rate) (ho : 0 ≤ cats.off_peak.tariff_rate)
    (hs : 0 ≤ cats.shoulder.tariff_rate) (h : RecordsLE l l2) :
    (_timeOfUseTariff l cats monthly_fee).total_cost ≤
      (_timeOfUseTariff l2 cats monthly_fee).total_cost := by
  show round2 (bucketConsumption cats .PEAK l * cats.peak.tariff_rate) +
      round2 (bucketConsumption cats .OFF_PEAK l * cats.off_peak.tariff_rate) +
      round2 (bucketConsumption cats .SHOULDER l * cats.shoulder.tariff_rate) +
      monthly_fee ≤
    round2 (bucketConsumption cats .PEAK l2 * cats.peak.tariff_rate) +
      round2 (bucketConsumption cats .OFF_PEAK l2 * cats.off_peak.tariff_rate) +
      round2 (bucketConsumption cats .SHOULDER l2 * cats.shoulder.tariff_rate) +
      monthly_fee
  have h1 := round2_mono
    (mul_le_mul_of_nonneg_right (recordsLE_bucket_le cats .PEAK h) hp)
  have h2 := round2_mono
    (mul_le_mul_of_nonneg_right (recordsLE_bucket_le cats .OFF_PEAK h) ho)
  have h3 := round2_mono
    (mul_le_mul_of_nonneg_right (recordsLE_bucket_le cats .SHOULDER h) hs)
  linarith

lemma tiered_total_cost_mono (tiers : TierTariffThresholds) (monthly_fee : ℚ)
    {l l2 : List ElectricalUsageRecord} (hr1 : 0 ≤ tiers.tier1.tariff_rate)
    (hr2 : 0 ≤ tiers.tier2.tariff_rate) (hr3 : 0 ≤ tiers.tier3.tariff_rate)
    (h : RecordsLE l l2) :
    (_tieredTariff l tiers monthly_fee).total_cost ≤
      (_tieredTariff l2 tiers monthly_fee).total_cost := by
  have hT := recordsLE_total_le h
  show round2 (min (_total_consumption l) tiers.tier1.high_kwh *
        tiers.tier1.tariff_rate +
      min (max 0 (_total_consumption l - tiers.tier1.high_kwh))
        (tiers.tier2.high_kwh - tiers.tier1.high_kwh) * tiers.tier2.tariff_rate +
      max 0 (_total_consumption l - tiers.tier2.high_kwh) *
        tiers.tier3.tariff_rate + monthly_fee) ≤
    round2 (min (_total_consumption l2) tiers.tier1.high_kwh *
        tiers.tier1.tariff_rate +
      min (max 0 (_total_consumption l2 - tiers.tier1.high_kwh))
        (tiers.tier2.high_kwh - tiers.tier1.high_kwh) * tiers.tier2.tariff_rate +
      max 0 (_total_consumption l2 - tiers.tier2.high_kwh) *
        tiers.tier3.tariff_rate + monthly_fee)
  apply round2_mono
  have c1 := mul_le_mul_of_nonneg_right
    (min_le_min hT (le_refl tiers.tier1.high_kwh)) hr1
  have c2 := mul_le_mul_of_nonneg_right
    (min_le_min (max_le_max (le_refl (0:ℚ))
        (sub_le_sub_right hT tiers.tier1.high_kwh))
      (le_refl (tiers.tier2.high_kwh - tiers.tier1.high_kwh))) hr2
  have c3 := mul_le_mul_of_nonneg_right
    (max_le_max (le_refl (0:ℚ)) (sub_le_sub_right hT tiers.tier2.high_kwh)) hr3
  linarith

/-- Claim C9, counterexample: the claim quantifies over *every*
configuration, but with a (legal, merely unpriced) negative flat rate −1,
raising the single record's kwh from 0 to 1 strictly *decreases*
`total_cost` (0 drops to −1). -/
theorem tariff_monotonicity_counterexample :
    (_flatRateTariff (([⟨0, 0⟩] : List ElectricalUsageRecord).set 0 ⟨0, 1⟩)
        ⟨-1⟩ 0).total_cost <
      (_flatRateTariff [⟨0, 0⟩] ⟨-1⟩ 0).total_cost := by
  show round2 (_total_consumption (([⟨0, 0⟩] :
      List ElectricalUsageRecord).set 0 ⟨0, 1⟩) * (-1)) + 0 <
    round2 (_total_consumption [⟨0, 0⟩] * (-1)) + 0
  norm_num [List.set, _total_consumption, round2, roundHalfEven]

/-- Claim C9 as amended: provided every configured rate is non-negative,
increasing the kwh of any single record (holding its timestamp and all
other records constant) never decreases `total_cost`, for each of the three
models. -/
theorem tariff_monotonicity_amended (tariff_data : List ElectricalUsageRecord)
    (i : ℕ) (r2 : ElectricalUsageRecord) (hi : i < tariff_data.length)
    (ht : r2.secondsOfDay = (tariff_data.get ⟨i, hi⟩).secondsOfDay)
    (hk : (tariff_data.get ⟨i, hi⟩).kwh ≤ r2.kwh)
    (flat_cfg : FlatRateTariff) (hflat : 0 ≤ flat_cfg.rate)
    (cats : TimeOfUseTariffCategories) (hp : 0 ≤ cats.peak.tariff_rate)
    (ho : 0 ≤ cats.off_peak.tariff_rate) (hs : 0 ≤ cats.shoulder.tariff_rate)
    (tiers : TierTariffThresholds) (hr1 : 0 ≤ tiers.tier1.tariff_rate)
    (hr2 : 0 ≤ tiers.tier2.tariff_rate) (hr3 : 0 ≤ tiers.tier3.tariff_rate)
    (monthly_fee : ℚ) :
    (_flatRateTariff tariff_data flat_cfg monthly_fee).total_cost ≤
      (_flatRateTariff (tariff_data.set i r2) flat_cfg monthly_fee).total_cost ∧
    (_timeOfUseTariff tariff_data cats monthly_fee).total_cost ≤
      (_timeOfUseTariff (tariff_data.set i r2) cats monthly_fee).total_cost ∧
    (_tieredTariff tariff_data tiers monthly_fee).total_cost ≤
      (_tieredTariff (tariff_data.set i r2) tiers monthly_fee).total_cost := by
  have hLE := recordsLE_set tariff_data i r2 hi ht hk
  exact ⟨flatRate_total_cost_mono flat_cfg monthly_fee hflat hLE,
    timeOfUse_total_cost_mono cats monthly_fee hp ho hs hLE,
    tiered_total_cost_mono tiers monthly_fee hr1 hr2 hr3 hLE⟩

/-- Witness for `tariff_monotonicity_amended`: one record raised from 1 to
2 kWh under concrete non-negative configurations. -/
theorem tariff_monotonicity_amended_witness :
    ((0:ℕ) < 1) ∧
    (_flatRateTariff [⟨30000, 1⟩] ⟨1/4⟩ 10).total_cost ≤
      (_flatRateTariff (([⟨30000, 1⟩] :
        List ElectricalUsageRecord).set 0 ⟨30000, 2⟩) ⟨1/4⟩ 10).total_cost ∧
    (_timeOfUseTariff [⟨30000, 1⟩]
        ⟨⟨.PEAK, 64800, 79199, 2/5⟩, ⟨.OFF_PEAK, 79200, 25199, 3/25⟩,
          ⟨.SHOULDER, 25200, 64799, 3/10⟩⟩ 10).total_cost ≤
      (_timeOfUseTariff (([⟨30000, 1⟩] :
          List ElectricalUsageRecord).set 0 ⟨30000, 2⟩)
        ⟨⟨.PEAK, 64800, 79199, 2/5⟩, ⟨.OFF_PEAK, 79200, 25199, 3/25⟩,
          ⟨.SHOULDER, 25200, 64799, 3/10⟩⟩ 10).total_cost ∧
    (_tieredTariff [⟨30000, 1⟩]
        ⟨⟨1, 0, 100, 1/5⟩, ⟨2, 101, 300, 3/10⟩, ⟨3, 301, 10000, 2/5⟩⟩
        10).total_cost ≤
      (_tieredTariff (([⟨30000, 1⟩] :
          List ElectricalUsageRecord).set 0 ⟨30000, 2⟩)
        ⟨⟨1, 0, 100, 1/5⟩, ⟨2, 101, 300, 3/10⟩, ⟨3, 301, 10000, 2/5⟩⟩
        10).total_cost := by
  refine ⟨by norm_num, ?_, ?_, ?_⟩
  · exact (tariff_monotonicity_amended [⟨30000, 1⟩] 0 ⟨30000, 2⟩ (by norm_num)
      rfl (by norm_num) ⟨1/4⟩ (by norm_num)
      ⟨⟨.PEAK, 64800, 79199, 2/5⟩, ⟨.OFF_PEAK, 79200, 25199, 3/25⟩,
        ⟨.SHOULDER, 25200, 64799, 3/10⟩⟩ (by norm_num) (by norm_num) (by norm_num)
      ⟨⟨1, 0, 100, 1/5⟩, ⟨2, 101, 300, 3/10⟩, ⟨3, 301, 10000, 2/5⟩⟩
      (by norm_num) (by norm_num) (by norm_num) 10).1
  · exact (tariff_monotonicity_amended [⟨30000, 1⟩] 0 ⟨30000, 2⟩ (by norm_num)
      rfl (by norm_num) ⟨1/4⟩ (by norm_num)
      ⟨⟨.PEAK, 64800, 79199, 2/5⟩, ⟨.OFF_PEAK, 79200, 25199, 3/25⟩,
        ⟨.SHOULDER, 25200, 64799, 3/10⟩⟩ (by norm_num) (by norm_num) (by norm_num)
      ⟨⟨1, 0, 100, 1/5⟩, ⟨2, 101, 300, 3/10⟩, ⟨3, 301, 10000, 2/5⟩⟩
      (by norm_num) (by norm_num) (by norm_num) 10).2.1
  · exact (tariff_monotonicity_amended [⟨30000, 1⟩] 0 ⟨30000, 2⟩ (by norm_num)
      rfl (by norm_num) ⟨1/4⟩ (by norm_num)
      ⟨⟨.PEAK, 64800, 79199, 2/5⟩, ⟨.OFF_PEAK, 79200, 25199, 3/25⟩,
        ⟨.SHOULDER, 25200, 64799, 3/10⟩⟩ (by norm_num) (by norm_num) (by norm_num)
      ⟨⟨1, 0, 100, 1/5⟩, ⟨2, 101, 300, 3/10⟩, ⟨3, 301, 10000, 2/5⟩⟩
      (by norm_num) (by norm_num) (by norm_num) 10).2.2

end Tariff
